import Mathlib

/-!
Shallow embedding of the EWKB codec of the `postgis` crate
(`src/ewkb.rs`, `src/ewkb/encoding.rs`, `src/ewkb/point.rs`,
`src/ewkb/container/point.rs`, `src/ewkb/geometry.rs`).

Modelling conventions:
* a byte stream is a `List Nat` of bytes (each below 256); readers consume a
  prefix and return the remainder;
* an `f64` is identified with its 64-bit pattern (a `Nat` below `2 ^ 64`): the
  codec never computes with floats, it only moves their bytes, so reading and
  writing 8-byte floats is exactly reading and writing the pattern;
* `i32` values (SRIDs) are `Int`s; the 4 wire bytes hold the two's complement;
* fallible reads return `Except Error (α × Bytes)`;
* the recursion of the generic geometry dispatcher through geometry
  collections is bounded by an explicit fuel argument, so that every
  definition is structurally recursive and executable; fuel exhaustion is a
  distinguished outcome that never occurs once the fuel exceeds the
  collection-nesting depth of the input.
-/

namespace Ewkb

/-- Byte streams: each element is one byte of the wire data. -/
abbrev Bytes := List Nat

/-- Decode-time outcomes. `read` models `Error::Read(msg)` with its formatted
message; `eof` models the `Error::Read` obtained from an underlying
end-of-stream io error via `From<std::io::Error>` (its io-specific message is
elided); `panicked` marks abrupt process termination through `panic!` (it is
not an error value the Rust caller can receive); `fuelOut` is an artifact of
the fuel-bounded recursion, never produced when the fuel exceeds the
collection-nesting depth of the input. -/
inductive Error where
  | read (msg : String)
  | eof
  | panicked (msg : String)
  | fuelOut
deriving DecidableEq

deriving instance DecidableEq for Except

/-- Read the one-byte byte-order marker (source: `raw.read_i8()?`). -/
def read_byte (raw : Bytes) : Except Error (Nat × Bytes) :=
  match raw with
  | [] => .error .eof
  | b :: r => .ok (b, r)

/-- Source: `encoding::read_u32` — 4 bytes, big- or little-endian. -/
def read_u32 (raw : Bytes) (is_be : Bool) : Except Error (Nat × Bytes) :=
  match raw with
  | b0 :: b1 :: b2 :: b3 :: r =>
    .ok ((if is_be then ((b0 * 256 + b1) * 256 + b2) * 256 + b3
          else ((b3 * 256 + b2) * 256 + b1) * 256 + b0), r)
  | _ => .error .eof

/-- Two's-complement reading of a 32-bit word as a signed integer. -/
def toInt32 (n : Nat) : Int :=
  if n % 2 ^ 32 < 2 ^ 31 then ((n % 2 ^ 32 : Nat) : Int)
  else ((n % 2 ^ 32 : Nat) : Int) - 2 ^ 32

/-- Source: `encoding::read_i32` — 4 bytes as a signed 32-bit integer. -/
def read_i32 (raw : Bytes) (is_be : Bool) : Except Error (Int × Bytes) :=
  (read_u32 raw is_be).map (fun p => (toInt32 p.1, p.2))

/-- Source: `encoding::read_f64` — 8 bytes; the result is the 64-bit pattern
of the read float. -/
def read_f64 (raw : Bytes) (is_be : Bool) : Except Error (Nat × Bytes) :=
  match raw with
  | b0 :: b1 :: b2 :: b3 :: b4 :: b5 :: b6 :: b7 :: r =>
    .ok ((if is_be then
            ((((((b0 * 256 + b1) * 256 + b2) * 256 + b3) * 256 + b4) * 256
              + b5) * 256 + b6) * 256 + b7
          else
            ((((((b7 * 256 + b6) * 256 + b5) * 256 + b4) * 256 + b3) * 256
              + b2) * 256 + b1) * 256 + b0), r)
  | _ => .error .eof

/-- Source: `fn has_z(type_id: u32) -> bool`. -/
def has_z (type_id : Nat) : Bool := type_id &&& 0x80000000 == 0x80000000

/-- Source: `fn has_m(type_id: u32) -> bool`. -/
def has_m (type_id : Nat) : Bool := type_id &&& 0x40000000 == 0x40000000

/-- Source: `enum PointType` in `src/ewkb/point.rs`. -/
inductive PointType where
  | Point
  | PointZ
  | PointM
  | PointZM
deriving DecidableEq

/-- Source: `EwkbWrite::wkb_type_id(point_type, srid)`: starts from 0 and ors
in the SRID, Z and M flag bits. -/
def wkb_type_id (point_type : PointType) (srid : Option Int) : Nat :=
  ((if srid.isSome then 0 ||| 0x20000000 else 0)
    ||| (if point_type = PointType.PointZ ∨ point_type = PointType.PointZM
         then 0x80000000 else 0))
  ||| (if point_type = PointType.PointM ∨ point_type = PointType.PointZM
       then 0x40000000 else 0)

/-- Source: `struct Point` (a `geo_types` x/y pair plus an optional SRID);
coordinates are 64-bit float patterns. -/
structure Point where
  x : Nat
  y : Nat
  srid : Option Int
deriving DecidableEq

/-- Source: `struct PointZ`. -/
structure PointZ where
  x : Nat
  y : Nat
  z : Nat
  srid : Option Int
deriving DecidableEq

/-- Source: `struct PointM`. -/
structure PointM where
  x : Nat
  y : Nat
  m : Nat
  srid : Option Int
deriving DecidableEq

/-- Source: `struct PointZM`. -/
structure PointZM where
  x : Nat
  y : Nat
  z : Nat
  m : Nat
  srid : Option Int
deriving DecidableEq

/-- Source: `Point::new_from_opt_vals` — drops the optional z and m. -/
def Point.new_from_opt_vals (x y : Nat) (_z _m : Option Nat)
    (srid : Option Int) : Point :=
  ⟨x, y, srid⟩

/-- Source: `PointZ::new_from_opt_vals` — `z.unwrap_or(0.0)` (the pattern of
`0.0` is 0). -/
def PointZ.new_from_opt_vals (x y : Nat) (z : Option Nat) (_m : Option Nat)
    (srid : Option Int) : PointZ :=
  ⟨x, y, z.getD 0, srid⟩

/-- Source: `PointM::new_from_opt_vals` — `m.unwrap_or(0.0)`. -/
def PointM.new_from_opt_vals (x y : Nat) (_z : Option Nat) (m : Option Nat)
    (srid : Option Int) : PointM :=
  ⟨x, y, m.getD 0, srid⟩

/-- Source: `PointZM::new_from_opt_vals` — both coordinates default to 0.0. -/
def PointZM.new_from_opt_vals (x y : Nat) (z : Option Nat) (m : Option Nat)
    (srid : Option Int) : PointZM :=
  ⟨x, y, z.getD 0, m.getD 0, srid⟩

/-- Accessor capability of the `postgis::Point` trait: x, y and the optional
z/m accessors (defaulting to `None`, as in the trait). -/
class PgPoint (P : Type) where
  x : P → Nat
  y : P → Nat
  opt_z : P → Option Nat := fun _ => none
  opt_m : P → Option Nat := fun _ => none

instance : PgPoint Point where
  x p := p.x
  y p := p.y

instance : PgPoint PointZ where
  x p := p.x
  y p := p.y
  opt_z p := some p.z

instance : PgPoint PointM where
  x p := p.x
  y p := p.y
  opt_m p := some p.m

instance : PgPoint PointZM where
  x p := p.x
  y p := p.y
  opt_z p := some p.z
  opt_m p := some p.m

/-- The `EwkbRead` trait: the point type of the geometry and its body reader
`read_ewkb_body(raw, is_be, type_id, srid)`. The overridable default method
`read_ewkb` is `Ewkb.read_ewkb` below; the only type overriding it,
`GeometryT`, is modelled separately. -/
class EwkbRead (P : Type) where
  point_type : PointType
  read_ewkb_body : Bytes → Bool → Nat → Option Int → Except Error (P × Bytes)

/-- `P::point_type()` with the geometry type explicit. -/
def pointTypeOf (P : Type) [i : EwkbRead P] : PointType := i.point_type

/-- The SRID block shared by every header-reading site in the source
(`EwkbRead::read_ewkb`, `GeometryT::read_ewkb` and the per-element parsing in
`GeometryCollectionT::read_ewkb_body` repeat it verbatim): when bit
`0x20000000` of the type id is set, read a signed 32-bit SRID. -/
def readOptSrid (raw : Bytes) (is_be : Bool) (type_id : Nat) :
    Except Error (Option Int × Bytes) :=
  if type_id &&& 0x20000000 == 0x20000000 then
    (read_i32 raw is_be).map (fun p => (some p.1, p.2))
  else
    .ok (none, raw)

/-- Default trait method `EwkbRead::read_ewkb`: order byte (0 means
big-endian), 32-bit type id, optional SRID, then the body. -/
def read_ewkb (P : Type) [EwkbRead P] (raw : Bytes) :
    Except Error (P × Bytes) :=
  match read_byte raw with
  | .error e => .error e
  | .ok (byte_order, raw) =>
    let is_be := byte_order == 0
    match read_u32 raw is_be with
    | .error e => .error e
    | .ok (type_id, raw) =>
      match readOptSrid raw is_be type_id with
      | .error e => .error e
      | .ok (srid, raw) => EwkbRead.read_ewkb_body raw is_be type_id srid

/-- Body reader shared by the four `impl_point_read_traits!` expansions:
x, y, then z only when `has_z(type_id)` and m only when `has_m(type_id)`,
assembled with the shape's `new_from_opt_vals`. -/
def point_read_body {P : Type}
    (mk : Nat → Nat → Option Nat → Option Nat → Option Int → P)
    (raw : Bytes) (is_be : Bool) (type_id : Nat) (srid : Option Int) :
    Except Error (P × Bytes) :=
  match read_f64 raw is_be with
  | .error e => .error e
  | .ok (x, raw) =>
    match read_f64 raw is_be with
    | .error e => .error e
    | .ok (y, raw) =>
      match (if has_z type_id then
               (read_f64 raw is_be).map (fun p => (some p.1, p.2))
             else .ok (none, raw)) with
      | .error e => .error e
      | .ok (z, raw) =>
        match (if has_m type_id then
                 (read_f64 raw is_be).map (fun p => (some p.1, p.2))
               else .ok (none, raw)) with
        | .error e => .error e
        | .ok (m, raw) => .ok (mk x y z m srid, raw)

instance : EwkbRead Point where
  point_type := .Point
  read_ewkb_body := point_read_body Point.new_from_opt_vals

instance : EwkbRead PointZ where
  point_type := .PointZ
  read_ewkb_body := point_read_body PointZ.new_from_opt_vals

instance : EwkbRead PointM where
  point_type := .PointM
  read_ewkb_body := point_read_body PointM.new_from_opt_vals

instance : EwkbRead PointZM where
  point_type := .PointZM
  read_ewkb_body := point_read_body PointZM.new_from_opt_vals

/-- The `for _ in 0..size` element loop of the container body readers: read
`n` items sequentially with `rd`, aborting on the first failure. -/
def readN {α : Type} (rd : Bytes → Except Error (α × Bytes)) :
    Nat → Bytes → Except Error (List α × Bytes)
  | 0, raw => .ok ([], raw)
  | n + 1, raw =>
    match rd raw with
    | .error e => .error e
    | .ok (a, raw) =>
      match readN rd n raw with
      | .error e => .error e
      | .ok (as, raw) => .ok (a :: as, raw)

/-- Source: `point_container_type!(LineString for LineStringT)`. -/
structure LineStringT (P : Type) where
  points : List P
  srid : Option Int
deriving DecidableEq

/-- Source: `point_container_type!(MultiPoint for MultiPointT)`. -/
structure MultiPointT (P : Type) where
  points : List P
  srid : Option Int
deriving DecidableEq

/-- Source: `geometry_container_type!(Polygon for PolygonT contains
LineStringT named rings)`. -/
structure PolygonT (P : Type) where
  rings : List (LineStringT P)
  srid : Option Int
deriving DecidableEq

/-- Source: `geometry_container_type!(MultiLineString for MultiLineStringT
contains LineStringT named lines)`. -/
structure MultiLineStringT (P : Type) where
  lines : List (LineStringT P)
  srid : Option Int
deriving DecidableEq

/-- Source: `geometry_container_type!(MultiPolygon for MultiPolygonT contains
PolygonT named polygons)`. -/
structure MultiPolygonT (P : Type) where
  polygons : List (PolygonT P)
  srid : Option Int
deriving DecidableEq

/-- Source: `impl_read_for_point_container_type!(singletype LineStringT)` —
inline discipline: each point is read as a raw coordinate body that inherits
the container's endianness, type id and SRID. -/
def LineStringT.read_ewkb_body (P : Type) [EwkbRead P] (raw : Bytes)
    (is_be : Bool) (type_id : Nat) (srid : Option Int) :
    Except Error (LineStringT P × Bytes) :=
  match read_u32 raw is_be with
  | .error e => .error e
  | .ok (size, raw) =>
    match readN (fun raw => EwkbRead.read_ewkb_body raw is_be type_id srid)
        size raw with
    | .error e => .error e
    | .ok (points, raw) => .ok (⟨points, srid⟩, raw)

instance [EwkbRead P] : EwkbRead (LineStringT P) where
  point_type := pointTypeOf P
  read_ewkb_body := LineStringT.read_ewkb_body P

/-- Source: `impl_read_for_geometry_container_type!(singletype PolygonT
contains LineStringT named rings)` — rings are inline `LineStringT` bodies
inheriting endianness, type id and SRID. -/
def PolygonT.read_ewkb_body (P : Type) [EwkbRead P] (raw : Bytes)
    (is_be : Bool) (type_id : Nat) (srid : Option Int) :
    Except Error (PolygonT P × Bytes) :=
  match read_u32 raw is_be with
  | .error e => .error e
  | .ok (size, raw) =>
    match readN
        (fun raw => LineStringT.read_ewkb_body P raw is_be type_id srid)
        size raw with
    | .error e => .error e
    | .ok (rings, raw) => .ok (⟨rings, srid⟩, raw)

instance [EwkbRead P] : EwkbRead (PolygonT P) where
  point_type := pointTypeOf P
  read_ewkb_body := PolygonT.read_ewkb_body P

/-- Source: `impl_read_for_point_container_type!(multitype MultiPointT)` —
typed-element discipline: each element is a fully self-describing geometry
read with `read_ewkb` (the container's type id and SRID are not passed on). -/
def MultiPointT.read_ewkb_body (P : Type) [EwkbRead P] (raw : Bytes)
    (is_be : Bool) (_type_id : Nat) (srid : Option Int) :
    Except Error (MultiPointT P × Bytes) :=
  match read_u32 raw is_be with
  | .error e => .error e
  | .ok (size, raw) =>
    match readN (fun raw => read_ewkb P raw) size raw with
    | .error e => .error e
    | .ok (points, raw) => .ok (⟨points, srid⟩, raw)

instance [EwkbRead P] : EwkbRead (MultiPointT P) where
  point_type := pointTypeOf P
  read_ewkb_body := MultiPointT.read_ewkb_body P

/-- Source: `impl_read_for_geometry_container_type!(multitype MultiLineStringT
contains LineStringT named lines)`. -/
def MultiLineStringT.read_ewkb_body (P : Type) [EwkbRead P] (raw : Bytes)
    (is_be : Bool) (_type_id : Nat) (srid : Option Int) :
    Except Error (MultiLineStringT P × Bytes) :=
  match read_u32 raw is_be with
  | .error e => .error e
  | .ok (size, raw) =>
    match readN (fun raw => read_ewkb (LineStringT P) raw) size raw with
    | .error e => .error e
    | .ok (lines, raw) => .ok (⟨lines, srid⟩, raw)

instance [EwkbRead P] : EwkbRead (MultiLineStringT P) where
  point_type := pointTypeOf P
  read_ewkb_body := MultiLineStringT.read_ewkb_body P

/-- Source: `impl_read_for_geometry_container_type!(multitype MultiPolygonT
contains PolygonT named polygons)`. -/
def MultiPolygonT.read_ewkb_body (P : Type) [EwkbRead P] (raw : Bytes)
    (is_be : Bool) (_type_id : Nat) (srid : Option Int) :
    Except Error (MultiPolygonT P × Bytes) :=
  match read_u32 raw is_be with
  | .error e => .error e
  | .ok (size, raw) =>
    match readN (fun raw => read_ewkb (PolygonT P) raw) size raw with
    | .error e => .error e
    | .ok (polygons, raw) => .ok (⟨polygons, srid⟩, raw)

instance [EwkbRead P] : EwkbRead (MultiPolygonT P) where
  point_type := pointTypeOf P
  read_ewkb_body := MultiPolygonT.read_ewkb_body P

mutual
/-- Source: `enum GeometryT<P>` — the tagged union over the 7 kinds. -/
inductive GeometryT (P : Type) where
  | point : P → GeometryT P
  | lineString : LineStringT P → GeometryT P
  | polygon : PolygonT P → GeometryT P
  | multiPoint : MultiPointT P → GeometryT P
  | multiLineString : MultiLineStringT P → GeometryT P
  | multiPolygon : MultiPolygonT P → GeometryT P
  | geometryCollection : GeometryCollectionT P → GeometryT P

/-- Source: `struct GeometryCollectionT<P>` — geometries plus SRID. -/
inductive GeometryCollectionT (P : Type) where
  | mk : List (GeometryT P) → Option Int → GeometryCollectionT P
end

/-- Field `geometries` of `GeometryCollectionT`. -/
def GeometryCollectionT.geometries {P : Type} :
    GeometryCollectionT P → List (GeometryT P)
  | .mk gs _ => gs

/-- Field `srid` of `GeometryCollectionT`. -/
def GeometryCollectionT.srid {P : Type} : GeometryCollectionT P → Option Int
  | .mk _ s => s

/-- The message of the source's unsupported-kind error:
`format!("Error reading generic geometry type - unsupported type id {}.",
type_id)`. -/
def unsupportedMsg (type_id : Nat) : String :=
  "Error reading generic geometry type - unsupported type id "
    ++ toString type_id ++ "."

mutual
/-- The `match type_id & 0xff` dispatch, written verbatim both in
`GeometryT::read_ewkb` and in the element loop of
`GeometryCollectionT::read_ewkb_body`: kinds 1–7 go to the matching codec,
anything else is the unsupported-kind `Error::Read`. Only the recursion into
a nested collection consumes fuel. -/
def geomDispatch (P : Type) [EwkbRead P] (fuel : Nat) (raw : Bytes)
    (is_be : Bool) (type_id : Nat) (srid : Option Int) :
    Except Error (GeometryT P × Bytes) :=
  let k := type_id &&& 0xff
  if k = 1 then
    (EwkbRead.read_ewkb_body (P := P) raw is_be type_id srid).map
      (fun p => (GeometryT.point p.1, p.2))
  else if k = 2 then
    (EwkbRead.read_ewkb_body (P := LineStringT P) raw is_be type_id srid).map
      (fun p => (GeometryT.lineString p.1, p.2))
  else if k = 3 then
    (EwkbRead.read_ewkb_body (P := PolygonT P) raw is_be type_id srid).map
      (fun p => (GeometryT.polygon p.1, p.2))
  else if k = 4 then
    (EwkbRead.read_ewkb_body (P := MultiPointT P) raw is_be type_id srid).map
      (fun p => (GeometryT.multiPoint p.1, p.2))
  else if k = 5 then
    (EwkbRead.read_ewkb_body (P := MultiLineStringT P) raw is_be type_id
        srid).map
      (fun p => (GeometryT.multiLineString p.1, p.2))
  else if k = 6 then
    (EwkbRead.read_ewkb_body (P := MultiPolygonT P) raw is_be type_id
        srid).map
      (fun p => (GeometryT.multiPolygon p.1, p.2))
  else if k = 7 then
    match fuel with
    | 0 => .error .fuelOut
    | fuel + 1 =>
      (GeometryCollectionT.read_ewkb_body P fuel raw is_be type_id srid).map
        (fun p => (GeometryT.geometryCollection p.1, p.2))
  else
    .error (.read (unsupportedMsg type_id))

/-- Source: `GeometryCollectionT::read_ewkb_body` — note that its `_srid`
argument is ignored: the returned collection is built from
`GeometryCollectionT::new()`, whose `srid` is `None`, and the field is never
updated. -/
def GeometryCollectionT.read_ewkb_body (P : Type) [EwkbRead P] (fuel : Nat)
    (raw : Bytes) (is_be : Bool) (_type_id : Nat) (_srid : Option Int) :
    Except Error (GeometryCollectionT P × Bytes) :=
  match fuel with
  | 0 => .error .fuelOut
  | fuel + 1 =>
    match read_u32 raw is_be with
    | .error e => .error e
    | .ok (size, raw) =>
      match readGeoms P fuel size raw with
      | .error e => .error e
      | .ok (gs, raw) => .ok (.mk gs none, raw)

/-- The element loop of `GeometryCollectionT::read_ewkb_body`: each element
reads its own order byte, type id and optional SRID, then dispatches on the
kind exactly as `GeometryT::read_ewkb` does. -/
def readGeoms (P : Type) [EwkbRead P] :
    Nat → Nat → Bytes → Except Error (List (GeometryT P) × Bytes)
  | _, 0, raw => .ok ([], raw)
  | 0, _ + 1, _ => .error .fuelOut
  | fuel + 1, n + 1, raw =>
    match read_byte raw with
    | .error e => .error e
    | .ok (byte_order, raw) =>
      let is_be := byte_order == 0
      match read_u32 raw is_be with
      | .error e => .error e
      | .ok (type_id, raw) =>
        match readOptSrid raw is_be type_id with
        | .error e => .error e
        | .ok (srid, raw) =>
          match geomDispatch P fuel raw is_be type_id srid with
          | .error e => .error e
          | .ok (g, raw) =>
            match readGeoms P fuel n raw with
            | .error e => .error e
            | .ok (gs, raw) => .ok (g :: gs, raw)
end

/-- Source: `GeometryT::read_ewkb` (the override of the trait default):
order byte, type id, optional SRID, then the kind dispatch. -/
def GeometryT.read_ewkb (P : Type) [EwkbRead P] (fuel : Nat) (raw : Bytes) :
    Except Error (GeometryT P × Bytes) :=
  match read_byte raw with
  | .error e => .error e
  | .ok (byte_order, raw) =>
    let is_be := byte_order == 0
    match read_u32 raw is_be with
    | .error e => .error e
    | .ok (type_id, raw) =>
      match readOptSrid raw is_be type_id with
      | .error e => .error e
      | .ok (srid, raw) => geomDispatch P fuel raw is_be type_id srid

/-- Source: `GeometryT::read_ewkb_body` — unconditionally
`panic!("Not used for generic geometry type")`; the panic (an abrupt process
termination, not an `Err` return) is modelled by the distinguished
`Error.panicked` outcome. -/
def GeometryT.read_ewkb_body (P : Type) (_raw : Bytes) (_is_be : Bool)
    (_type_id : Nat) (_srid : Option Int) :
    Except Error (GeometryT P × Bytes) :=
  .error (.panicked "Not used for generic geometry type")

/-- Default trait method `read_ewkb` as inherited by
`GeometryCollectionT` (it does not override it). -/
def GeometryCollectionT.read_ewkb (P : Type) [EwkbRead P] (fuel : Nat)
    (raw : Bytes) : Except Error (GeometryCollectionT P × Bytes) :=
  match read_byte raw with
  | .error e => .error e
  | .ok (byte_order, raw) =>
    let is_be := byte_order == 0
    match read_u32 raw is_be with
    | .error e => .error e
    | .ok (type_id, raw) =>
      match readOptSrid raw is_be type_id with
      | .error e => .error e
      | .ok (srid, raw) =>
        GeometryCollectionT.read_ewkb_body P fuel raw is_be type_id srid

/-- Little-endian serialization of a 32-bit word (`write_u32::<LittleEndian>`). -/
def u32le (n : Nat) : Bytes :=
  [n % 256, n / 256 % 256, n / 2 ^ 16 % 256, n / 2 ^ 24 % 256]

/-- Little-endian serialization of a signed 32-bit integer
(`write_i32::<LittleEndian>`): the two's-complement word. -/
def i32le (z : Int) : Bytes := u32le (z % 2 ^ 32).toNat

/-- Little-endian serialization of an 8-byte float given by its 64-bit
pattern (`write_f64::<LittleEndian>`). -/
def f64le (n : Nat) : Bytes :=
  [n % 256, n / 256 % 256, n / 2 ^ 16 % 256, n / 2 ^ 24 % 256,
   n / 2 ^ 32 % 256, n / 2 ^ 40 % 256, n / 2 ^ 48 % 256, n / 2 ^ 56 % 256]

/-- Default trait method `EwkbWrite::write_ewkb`, given the writer's
`type_id()`, `opt_srid()` and `write_ewkb_body` output: order byte `0x01`
(writers always emit little-endian), the type id, the SRID when present,
then the body. -/
def write_ewkb (type_id : Nat) (srid : Option Int) (body : Bytes) : Bytes :=
  1 :: (u32le type_id ++ ((match srid with
                           | some s => i32le s
                           | none => []) ++ body))

/-- Source: the `EwkbPoint` write adapter (a borrowed point plus the SRID and
point type to serialize with). Its defining module (the `ewkb::container`
module root) is not under src/; its shape is fixed by its uses in
`src/ewkb/point.rs`, `src/ewkb/container/point.rs` and `src/ewkb.rs`. -/
structure EwkbPoint (P : Type) where
  geom : P
  srid : Option Int
  point_type : PointType

/-- Modelled from the spec: `EwkbPoint`'s `write_ewkb_body` is in the missing
`ewkb::container` module root; per §4.3 it emits x, y, then z exactly when
the point type has z, then m exactly when it has m, as little-endian 8-byte
floats, the values coming from the borrowed point's accessors. -/
def EwkbPoint.write_ewkb_body {P : Type} [PgPoint P] (e : EwkbPoint P) :
    Bytes :=
  f64le (PgPoint.x e.geom) ++ f64le (PgPoint.y e.geom)
    ++ ((if e.point_type = PointType.PointZ ∨ e.point_type = PointType.PointZM
         then f64le ((PgPoint.opt_z e.geom).getD 0) else [])
      ++ (if e.point_type = PointType.PointM ∨ e.point_type = PointType.PointZM
          then f64le ((PgPoint.opt_m e.geom).getD 0) else []))

/-- Modelled from the spec: `EwkbPoint`'s `type_id()` (same missing module);
per §4.3 the header word is `TypeIdCodec.encode(1, ...)`, i.e. type code 1
combined with `wkb_type_id`. -/
def EwkbPoint.type_id {P : Type} (e : EwkbPoint P) : Nat :=
  0x01 ||| wkb_type_id e.point_type e.srid

/-- `write_ewkb` of an `EwkbPoint` (the default trait method applied to the
adapter's type id, SRID and body). -/
def EwkbPoint.write_ewkb {P : Type} [PgPoint P] (e : EwkbPoint P) : Bytes :=
  Ewkb.write_ewkb e.type_id e.srid e.write_ewkb_body

/-- Source: `Point::as_ewkb` from `impl_point_read_traits!(Point)`. -/
def Point.as_ewkb (p : Point) : EwkbPoint Point := ⟨p, p.srid, .Point⟩

/-- Source: `PointZ::as_ewkb`. -/
def PointZ.as_ewkb (p : PointZ) : EwkbPoint PointZ := ⟨p, p.srid, .PointZ⟩

/-- Source: `PointM::as_ewkb`. -/
def PointM.as_ewkb (p : PointM) : EwkbPoint PointM := ⟨p, p.srid, .PointM⟩

/-- Source: `PointZM::as_ewkb`. -/
def PointZM.as_ewkb (p : PointZM) : EwkbPoint PointZM :=
  ⟨p, p.srid, .PointZM⟩

/-- Source: the `EwkbLineString` write adapter from
`point_container_write!(LineString ...)`. -/
structure EwkbLineString (P : Type) where
  geom : LineStringT P
  srid : Option Int
  point_type : PointType

/-- Source: `EwkbLineString::type_id` — type code `0x02`. -/
def EwkbLineString.type_id {P : Type} (e : EwkbLineString P) : Nat :=
  0x02 ||| wkb_type_id e.point_type e.srid

/-- Source: `EwkbLineString::write_ewkb_body` — count, then each point's raw
coordinate body (`command write_ewkb_body`: no per-point header), each point
wrapped in an `EwkbPoint` whose `srid` is forced to `None`. -/
def EwkbLineString.write_ewkb_body {P : Type} [PgPoint P]
    (e : EwkbLineString P) : Bytes :=
  u32le e.geom.points.length
    ++ (e.geom.points.map
        (fun p => EwkbPoint.write_ewkb_body ⟨p, none, e.point_type⟩)).flatten

/-- `write_ewkb` of an `EwkbLineString`. -/
def EwkbLineString.write_ewkb {P : Type} [PgPoint P] (e : EwkbLineString P) :
    Bytes :=
  Ewkb.write_ewkb e.type_id e.srid e.write_ewkb_body

/-- Source: `LineStringT::as_ewkb` — the container's own SRID and the point
shape's type. -/
def LineStringT.as_ewkb {P : Type} [EwkbRead P] (g : LineStringT P) :
    EwkbLineString P :=
  ⟨g, g.srid, pointTypeOf P⟩

/-- Source: the `EwkbPolygon` write adapter from
`geometry_container_write!(Polygon ...)`. -/
structure EwkbPolygon (P : Type) where
  geom : PolygonT P
  srid : Option Int
  point_type : PointType

/-- Source: `EwkbPolygon::type_id` — type code `0x03`. -/
def EwkbPolygon.type_id {P : Type} (e : EwkbPolygon P) : Nat :=
  0x03 ||| wkb_type_id e.point_type e.srid

/-- Source: `EwkbPolygon::write_ewkb_body` — count, then each ring's body
(`command write_ewkb_body`: rings are written inline, without their own
header), each ring wrapped with `srid: None`. -/
def EwkbPolygon.write_ewkb_body {P : Type} [PgPoint P] (e : EwkbPolygon P) :
    Bytes :=
  u32le e.geom.rings.length
    ++ (e.geom.rings.map
        (fun r =>
          EwkbLineString.write_ewkb_body ⟨r, none, e.point_type⟩)).flatten

/-- `write_ewkb` of an `EwkbPolygon`. -/
def EwkbPolygon.write_ewkb {P : Type} [PgPoint P] (e : EwkbPolygon P) :
    Bytes :=
  Ewkb.write_ewkb e.type_id e.srid e.write_ewkb_body

/-- Source: `PolygonT::as_ewkb`. -/
def PolygonT.as_ewkb {P : Type} [EwkbRead P] (g : PolygonT P) :
    EwkbPolygon P :=
  ⟨g, g.srid, pointTypeOf P⟩

/-- Source: the `EwkbMultiPoint` write adapter from
`point_container_write!(MultiPoint ...)`. -/
structure EwkbMultiPoint (P : Type) where
  geom : MultiPointT P
  srid : Option Int
  point_type : PointType

/-- Source: `EwkbMultiPoint::type_id` — type code `0x04`. -/
def EwkbMultiPoint.type_id {P : Type} (e : EwkbMultiPoint P) : Nat :=
  0x04 ||| wkb_type_id e.point_type e.srid

/-- Source: `EwkbMultiPoint::write_ewkb_body` — count, then each point as a
full self-describing geometry (`command write_ewkb`), wrapped in an
`EwkbPoint` whose `srid` is forced to `None`. -/
def EwkbMultiPoint.write_ewkb_body {P : Type} [PgPoint P]
    (e : EwkbMultiPoint P) : Bytes :=
  u32le e.geom.points.length
    ++ (e.geom.points.map
        (fun p => EwkbPoint.write_ewkb ⟨p, none, e.point_type⟩)).flatten

/-- `write_ewkb` of an `EwkbMultiPoint`. -/
def EwkbMultiPoint.write_ewkb {P : Type} [PgPoint P] (e : EwkbMultiPoint P) :
    Bytes :=
  Ewkb.write_ewkb e.type_id e.srid e.write_ewkb_body

/-- Source: `MultiPointT::as_ewkb`. -/
def MultiPointT.as_ewkb {P : Type} [EwkbRead P] (g : MultiPointT P) :
    EwkbMultiPoint P :=
  ⟨g, g.srid, pointTypeOf P⟩

/-- Source: the `EwkbMultiLineString` write adapter from
`geometry_container_write!(MultiLineString ...)`. -/
structure EwkbMultiLineString (P : Type) where
  geom : MultiLineStringT P
  srid : Option Int
  point_type : PointType

/-- Source: `EwkbMultiLineString::type_id` — type code `0x05`. -/
def EwkbMultiLineString.type_id {P : Type} (e : EwkbMultiLineString P) :
    Nat :=
  0x05 ||| wkb_type_id e.point_type e.srid

/-- Source: `EwkbMultiLineString::write_ewkb_body` — count, then each line as
a full self-describing geometry (`command write_ewkb`), each wrapped in an
`EwkbLineString` whose `srid` is forced to `None`. -/
def EwkbMultiLineString.write_ewkb_body {P : Type} [PgPoint P]
    (e : EwkbMultiLineString P) : Bytes :=
  u32le e.geom.lines.length
    ++ (e.geom.lines.map
        (fun l => EwkbLineString.write_ewkb ⟨l, none, e.point_type⟩)).flatten

/-- `write_ewkb` of an `EwkbMultiLineString`. -/
def EwkbMultiLineString.write_ewkb {P : Type} [PgPoint P]
    (e : EwkbMultiLineString P) : Bytes :=
  Ewkb.write_ewkb e.type_id e.srid e.write_ewkb_body

/-- Source: `MultiLineStringT::as_ewkb`. -/
def MultiLineStringT.as_ewkb {P : Type} [EwkbRead P]
    (g : MultiLineStringT P) : EwkbMultiLineString P :=
  ⟨g, g.srid, pointTypeOf P⟩

/-- Source: the `EwkbMultiPolygon` write adapter from
`geometry_container_write!(multipoly MultiPolygon ...)`. -/
structure EwkbMultiPolygon (P : Type) where
  geom : MultiPolygonT P
  srid : Option Int
  point_type : PointType

/-- Source: `EwkbMultiPolygon::type_id` — type code `0x06`. -/
def EwkbMultiPolygon.type_id {P : Type} (e : EwkbMultiPolygon P) : Nat :=
  0x06 ||| wkb_type_id e.point_type e.srid

/-- Source: `EwkbMultiPolygon::write_ewkb_body` — count, then each polygon as
a full self-describing geometry (`command write_ewkb`), each wrapped with
`srid: None`. -/
def EwkbMultiPolygon.write_ewkb_body {P : Type} [PgPoint P]
    (e : EwkbMultiPolygon P) : Bytes :=
  u32le e.geom.polygons.length
    ++ (e.geom.polygons.map
        (fun y => EwkbPolygon.write_ewkb ⟨y, none, e.point_type⟩)).flatten

/-- `write_ewkb` of an `EwkbMultiPolygon`. -/
def EwkbMultiPolygon.write_ewkb {P : Type} [PgPoint P]
    (e : EwkbMultiPolygon P) : Bytes :=
  Ewkb.write_ewkb e.type_id e.srid e.write_ewkb_body

/-- Source: `MultiPolygonT::as_ewkb`. -/
def MultiPolygonT.as_ewkb {P : Type} [EwkbRead P] (g : MultiPolygonT P) :
    EwkbMultiPolygon P :=
  ⟨g, g.srid, pointTypeOf P⟩

/-- One uppercase hex digit (values 0–15 map to `0`–`9`, `A`–`F`). -/
def hexDigit (n : Nat) : Char :=
  if n < 10 then Char.ofNat (48 + n) else Char.ofNat (55 + n)

/-- The `format!("{:02X}", b)` rendering of one byte. -/
def hexByte (b : Nat) : String :=
  String.mk [hexDigit (b / 16 % 16), hexDigit (b % 16)]

/-- Source: `EwkbWrite::to_hex_ewkb` — fold the written bytes into an
uppercase two-digits-per-byte hex string. -/
def to_hex_ewkb (written : Bytes) : String :=
  written.foldl (fun s b => s ++ hexByte b) ""

/-- Reading back 4 little-endian bytes of a 32-bit word. -/
theorem read_u32_le (n : Nat) (r : Bytes) (h : n < 2 ^ 32) :
    read_u32 (u32le n ++ r) false = .ok (n, r) := by
  simp only [u32le, List.cons_append, List.nil_append, read_u32,
    Bool.false_eq_true, if_false, Except.ok.injEq, Prod.mk.injEq, and_true]
  omega

/-- Reading back 8 little-endian bytes of a 64-bit float pattern. -/
theorem read_f64_le (n : Nat) (r : Bytes) (h : n < 2 ^ 64) :
    read_f64 (f64le n ++ r) false = .ok (n, r) := by
  simp only [f64le, List.cons_append, List.nil_append, read_f64,
    Bool.false_eq_true, if_false, Except.ok.injEq, Prod.mk.injEq, and_true]
  omega

/-- Reading back the two's-complement serialization of an `i32`. -/
theorem read_i32_le (z : Int) (r : Bytes) (h1 : -2 ^ 31 ≤ z)
    (h2 : z < 2 ^ 31) :
    read_i32 (i32le z ++ r) false = .ok (z, r) := by
  have hlt : (z % 2 ^ 32).toNat < 2 ^ 32 := by omega
  rw [read_i32, i32le, read_u32_le _ _ hlt]
  simp only [Except.map, toInt32, Except.ok.injEq, Prod.mk.injEq, and_true]
  split <;> omega

/-- Reading a header written with order byte 1 and no SRID flag hands the
remainder to the body reader with `srid = none`. -/
theorem read_ewkb_header_none (P : Type) [EwkbRead P] (tid : Nat)
    (body : Bytes) (htid : tid < 2 ^ 32)
    (hflag : (tid &&& 0x20000000 == 0x20000000) = false) :
    read_ewkb P (1 :: (u32le tid ++ body)) =
      EwkbRead.read_ewkb_body body false tid none := by
  rw [read_ewkb]
  simp only [read_byte, Nat.reduceBEq, read_u32_le tid body htid, readOptSrid,
    hflag, Bool.false_eq_true, if_false]

/-- Reading a header written with order byte 1, the SRID flag set and an
in-range SRID hands the remainder to the body reader with `srid = some s`. -/
theorem read_ewkb_header_srid (P : Type) [EwkbRead P] (tid : Nat) (s : Int)
    (body : Bytes) (htid : tid < 2 ^ 32)
    (hflag : (tid &&& 0x20000000 == 0x20000000) = true)
    (hs1 : -2 ^ 31 ≤ s) (hs2 : s < 2 ^ 31) :
    read_ewkb P (1 :: (u32le tid ++ (i32le s ++ body))) =
      EwkbRead.read_ewkb_body body false tid (some s) := by
  rw [read_ewkb]
  simp only [read_byte, Nat.reduceBEq, read_u32_le tid _ htid, readOptSrid,
    hflag, if_true, read_i32_le s body hs1 hs2, Except.map]

/-- The shared point body reader on an x/y payload whose type id carries
neither the Z nor the M flag. -/
theorem point_read_body_xy {P : Type}
    (mk : Nat → Nat → Option Nat → Option Nat → Option Int → P)
    (x y : Nat) (tid : Nat) (srid : Option Int) (r : Bytes)
    (hx : x < 2 ^ 64) (hy : y < 2 ^ 64)
    (hz : has_z tid = false) (hm : has_m tid = false) :
    point_read_body mk (f64le x ++ (f64le y ++ r)) false tid srid =
      .ok (mk x y none none srid, r) := by
  rw [point_read_body]
  simp only [read_f64_le x _ hx, read_f64_le y r hy, hz, hm,
    Bool.false_eq_true, if_false]

/-- The shared point body reader on an x/y/z payload (Z flag set, M clear). -/
theorem point_read_body_xyz {P : Type}
    (mk : Nat → Nat → Option Nat → Option Nat → Option Int → P)
    (x y z : Nat) (tid : Nat) (srid : Option Int) (r : Bytes)
    (hx : x < 2 ^ 64) (hy : y < 2 ^ 64) (hz' : z < 2 ^ 64)
    (hz : has_z tid = true) (hm : has_m tid = false) :
    point_read_body mk (f64le x ++ (f64le y ++ (f64le z ++ r))) false tid
        srid =
      .ok (mk x y (some z) none srid, r) := by
  rw [point_read_body]
  simp only [read_f64_le x _ hx, read_f64_le y _ hy, read_f64_le z r hz',
    hz, hm, Bool.false_eq_true, if_false, if_true, Except.map]

/-- The shared point body reader on an x/y/m payload (M flag set, Z clear). -/
theorem point_read_body_xym {P : Type}
    (mk : Nat → Nat → Option Nat → Option Nat → Option Int → P)
    (x y m : Nat) (tid : Nat) (srid : Option Int) (r : Bytes)
    (hx : x < 2 ^ 64) (hy : y < 2 ^ 64) (hm' : m < 2 ^ 64)
    (hz : has_z tid = false) (hm : has_m tid = true) :
    point_read_body mk (f64le x ++ (f64le y ++ (f64le m ++ r))) false tid
        srid =
      .ok (mk x y none (some m) srid, r) := by
  rw [point_read_body]
  simp only [read_f64_le x _ hx, read_f64_le y _ hy, read_f64_le m r hm',
    hz, hm, Bool.false_eq_true, if_false, if_true, Except.map]

/-- The shared point body reader on a full x/y/z/m payload (both flags). -/
theorem point_read_body_xyzm {P : Type}
    (mk : Nat → Nat → Option Nat → Option Nat → Option Int → P)
    (x y z m : Nat) (tid : Nat) (srid : Option Int) (r : Bytes)
    (hx : x < 2 ^ 64) (hy : y < 2 ^ 64) (hz' : z < 2 ^ 64) (hm' : m < 2 ^ 64)
    (hz : has_z tid = true) (hm : has_m tid = true) :
    point_read_body mk (f64le x ++ (f64le y ++ (f64le z ++ (f64le m ++ r))))
        false tid srid =
      .ok (mk x y (some z) (some m) srid, r) := by
  rw [point_read_body]
  simp only [read_f64_le x _ hx, read_f64_le y _ hy, read_f64_le z _ hz',
    read_f64_le m r hm', hz, hm, if_true, Except.map]

/-- The point type whose Z/M presence flags are the given booleans; composing
it with `wkb_type_id` realises the claim's `encode(kind, has_srid, has_z,
has_m)`. -/
def pointTypeOfFlags : Bool → Bool → PointType
  | false, false => .Point
  | true, false => .PointZ
  | false, true => .PointM
  | true, true => .PointZM

/-- C7: for every geometry kind 1–7 and every combination of the SRID/Z/M
presence flags, decoding the encoded 32-bit type-id word (kind low byte via
`& 0xFF`, SRID via bit `0x20000000`, Z via `has_z`, M via `has_m`) returns
exactly the same four values. -/
theorem c7_header_bit_independence (kind : Nat) (hz hm : Bool)
    (srid : Option Int) (h1 : 1 ≤ kind) (h2 : kind ≤ 7) :
    ((kind ||| wkb_type_id (pointTypeOfFlags hz hm) srid) &&& 0xff = kind)
    ∧ (((kind ||| wkb_type_id (pointTypeOfFlags hz hm) srid) &&& 0x20000000
          == 0x20000000) = srid.isSome)
    ∧ has_z (kind ||| wkb_type_id (pointTypeOfFlags hz hm) srid) = hz
    ∧ has_m (kind ||| wkb_type_id (pointTypeOfFlags hz hm) srid) = hm := by
  interval_cases kind <;> rcases srid with _ | s <;> cases hz <;> cases hm <;>
    simp only [wkb_type_id, Option.isSome_some, Option.isSome_none, if_true,
      if_false, Bool.false_eq_true, Bool.true_eq_false] <;> decide

/-- Witness for C7 at kind 5 with all three flags set. -/
theorem c7_header_bit_independence_witness :
    (1 ≤ 5 ∧ 5 ≤ 7)
    ∧ ((5 ||| wkb_type_id (pointTypeOfFlags true true) (some 4326)) &&& 0xff
        = 5)
    ∧ (((5 ||| wkb_type_id (pointTypeOfFlags true true) (some 4326)) &&&
          0x20000000 == 0x20000000) = (some (4326 : Int)).isSome)
    ∧ has_z (5 ||| wkb_type_id (pointTypeOfFlags true true) (some 4326))
        = true
    ∧ has_m (5 ||| wkb_type_id (pointTypeOfFlags true true) (some 4326))
        = true :=
  ⟨⟨by decide, by decide⟩,
    c7_header_bit_independence 5 true true (some 4326) (by decide)
      (by decide)⟩

/-- C9: the literal encoding vectors — `Point(10, -20)` (float patterns
`0x4024000000000000` and `0xC034000000000000`) hex-encodes with no SRID to
`0101000000000000000000244000000000000034C0`, and with SRID 4326 to
`0101000020E6100000000000000000244000000000000034C0`. -/
theorem c9_literal_encoding_vectors :
    to_hex_ewkb (EwkbPoint.write_ewkb
        (Point.as_ewkb ⟨0x4024000000000000, 0xC034000000000000, none⟩))
      = "0101000000000000000000244000000000000034C0"
    ∧ to_hex_ewkb (EwkbPoint.write_ewkb
        (Point.as_ewkb ⟨0x4024000000000000, 0xC034000000000000, some 4326⟩))
      = "0101000020E6100000000000000000244000000000000034C0" :=
  ⟨rfl, rfl⟩

/-- An optional SRID whose value fits in a signed 32-bit integer (every
`Option<i32>` satisfies this). -/
def sridInRange : Option Int → Prop
  | none => True
  | some s => -2 ^ 31 ≤ s ∧ s < 2 ^ 31

/-- C3: writing any point of any of the four shapes with `write_ewkb` and
reading the produced bytes back as the same shape reproduces the coordinates
and SRID exactly. Coordinates are arbitrary 64-bit float patterns, so this
covers every IEEE-754 value including NaN patterns and reproduction is exact
bit-for-bit equality. -/
theorem c3_point_round_trip (x y z m : Nat) (srid : Option Int)
    (hx : x < 2 ^ 64) (hy : y < 2 ^ 64) (hz : z < 2 ^ 64) (hm : m < 2 ^ 64)
    (hs : sridInRange srid) :
    read_ewkb Point (EwkbPoint.write_ewkb (Point.as_ewkb ⟨x, y, srid⟩))
      = .ok (⟨x, y, srid⟩, [])
    ∧ read_ewkb PointZ (EwkbPoint.write_ewkb (PointZ.as_ewkb ⟨x, y, z, srid⟩))
      = .ok (⟨x, y, z, srid⟩, [])
    ∧ read_ewkb PointM (EwkbPoint.write_ewkb (PointM.as_ewkb ⟨x, y, m, srid⟩))
      = .ok (⟨x, y, m, srid⟩, [])
    ∧ read_ewkb PointZM
        (EwkbPoint.write_ewkb (PointZM.as_ewkb ⟨x, y, z, m, srid⟩))
      = .ok (⟨x, y, z, m, srid⟩, []) := by
  refine ⟨?_, ?_, ?_, ?_⟩ <;> rcases srid with _ | s
  · have hw : EwkbPoint.write_ewkb (Point.as_ewkb ⟨x, y, none⟩)
        = 1 :: (u32le 0x01
            ++ (f64le x ++ (f64le y ++ []))) := by
      simp [EwkbPoint.write_ewkb, Ewkb.write_ewkb, EwkbPoint.type_id,
        EwkbPoint.write_ewkb_body, wkb_type_id, Point.as_ewkb, PointZ.as_ewkb,
        PointM.as_ewkb, PointZM.as_ewkb, PgPoint.x, PgPoint.y, PgPoint.opt_z,
        PgPoint.opt_m]
    rw [hw, read_ewkb_header_none Point 0x01 _ (by decide) (by decide),
      show EwkbRead.read_ewkb_body (P := Point)
          = point_read_body Point.new_from_opt_vals from rfl,
      point_read_body_xy Point.new_from_opt_vals x y 0x01 none [] hx hy
        (by decide) (by decide)]
    rfl
  · have hw : EwkbPoint.write_ewkb (Point.as_ewkb ⟨x, y, some s⟩)
        = 1 :: (u32le 0x20000001
            ++ (i32le s ++ (f64le x ++ (f64le y ++ [])))) := by
      simp [EwkbPoint.write_ewkb, Ewkb.write_ewkb, EwkbPoint.type_id,
        EwkbPoint.write_ewkb_body, wkb_type_id, Point.as_ewkb, PointZ.as_ewkb,
        PointM.as_ewkb, PointZM.as_ewkb, PgPoint.x, PgPoint.y, PgPoint.opt_z,
        PgPoint.opt_m]
    rw [hw, read_ewkb_header_srid Point 0x20000001 s _ (by decide)
        (by decide) hs.1 hs.2,
      show EwkbRead.read_ewkb_body (P := Point)
          = point_read_body Point.new_from_opt_vals from rfl,
      point_read_body_xy Point.new_from_opt_vals x y 0x20000001 (some s) []
        hx hy (by decide) (by decide)]
    rfl
  · have hw : EwkbPoint.write_ewkb (PointZ.as_ewkb ⟨x, y, z, none⟩)
        = 1 :: (u32le 0x80000001
            ++ (f64le x ++ (f64le y ++ (f64le z ++ [])))) := by
      simp [EwkbPoint.write_ewkb, Ewkb.write_ewkb, EwkbPoint.type_id,
        EwkbPoint.write_ewkb_body, wkb_type_id, Point.as_ewkb, PointZ.as_ewkb,
        PointM.as_ewkb, PointZM.as_ewkb, PgPoint.x, PgPoint.y, PgPoint.opt_z,
        PgPoint.opt_m]
    rw [hw, read_ewkb_header_none PointZ 0x80000001 _ (by decide) (by decide),
      show EwkbRead.read_ewkb_body (P := PointZ)
          = point_read_body PointZ.new_from_opt_vals from rfl,
      point_read_body_xyz PointZ.new_from_opt_vals x y z 0x80000001 none []
        hx hy hz (by decide) (by decide)]
    rfl
  · have hw : EwkbPoint.write_ewkb (PointZ.as_ewkb ⟨x, y, z, some s⟩)
        = 1 :: (u32le 0xA0000001
            ++ (i32le s ++ (f64le x ++ (f64le y ++ (f64le z ++ []))))) := by
      simp [EwkbPoint.write_ewkb, Ewkb.write_ewkb, EwkbPoint.type_id,
        EwkbPoint.write_ewkb_body, wkb_type_id, Point.as_ewkb, PointZ.as_ewkb,
        PointM.as_ewkb, PointZM.as_ewkb, PgPoint.x, PgPoint.y, PgPoint.opt_z,
        PgPoint.opt_m]
    rw [hw, read_ewkb_header_srid PointZ 0xA0000001 s _ (by decide)
        (by decide) hs.1 hs.2,
      show EwkbRead.read_ewkb_body (P := PointZ)
          = point_read_body PointZ.new_from_opt_vals from rfl,
      point_read_body_xyz PointZ.new_from_opt_vals x y z 0xA0000001 (some s)
        [] hx hy hz (by decide) (by decide)]
    rfl
  · have hw : EwkbPoint.write_ewkb (PointM.as_ewkb ⟨x, y, m, none⟩)
        = 1 :: (u32le 0x40000001
            ++ (f64le x ++ (f64le y ++ (f64le m ++ [])))) := by
      simp [EwkbPoint.write_ewkb, Ewkb.write_ewkb, EwkbPoint.type_id,
        EwkbPoint.write_ewkb_body, wkb_type_id, Point.as_ewkb, PointZ.as_ewkb,
        PointM.as_ewkb, PointZM.as_ewkb, PgPoint.x, PgPoint.y, PgPoint.opt_z,
        PgPoint.opt_m]
    rw [hw, read_ewkb_header_none PointM 0x40000001 _ (by decide) (by decide),
      show EwkbRead.read_ewkb_body (P := PointM)
          = point_read_body PointM.new_from_opt_vals from rfl,
      point_read_body_xym PointM.new_from_opt_vals x y m 0x40000001 none []
        hx hy hm (by decide) (by decide)]
    rfl
  · have hw : EwkbPoint.write_ewkb (PointM.as_ewkb ⟨x, y, m, some s⟩)
        = 1 :: (u32le 0x60000001
            ++ (i32le s ++ (f64le x ++ (f64le y ++ (f64le m ++ []))))) := by
      simp [EwkbPoint.write_ewkb, Ewkb.write_ewkb, EwkbPoint.type_id,
        EwkbPoint.write_ewkb_body, wkb_type_id, Point.as_ewkb, PointZ.as_ewkb,
        PointM.as_ewkb, PointZM.as_ewkb, PgPoint.x, PgPoint.y, PgPoint.opt_z,
        PgPoint.opt_m]
    rw [hw, read_ewkb_header_srid PointM 0x60000001 s _ (by decide)
        (by decide) hs.1 hs.2,
      show EwkbRead.read_ewkb_body (P := PointM)
          = point_read_body PointM.new_from_opt_vals from rfl,
      point_read_body_xym PointM.new_from_opt_vals x y m 0x60000001 (some s)
        [] hx hy hm (by decide) (by decide)]
    rfl
  · have hw : EwkbPoint.write_ewkb (PointZM.as_ewkb ⟨x, y, z, m, none⟩)
        = 1 :: (u32le 0xC0000001
            ++ (f64le x ++ (f64le y ++ (f64le z ++ (f64le m ++ []))))) := by
      simp [EwkbPoint.write_ewkb, Ewkb.write_ewkb, EwkbPoint.type_id,
        EwkbPoint.write_ewkb_body, wkb_type_id, Point.as_ewkb, PointZ.as_ewkb,
        PointM.as_ewkb, PointZM.as_ewkb, PgPoint.x, PgPoint.y, PgPoint.opt_z,
        PgPoint.opt_m]
    rw [hw, read_ewkb_header_none PointZM 0xC0000001 _ (by decide) (by decide),
      show EwkbRead.read_ewkb_body (P := PointZM)
          = point_read_body PointZM.new_from_opt_vals from rfl,
      point_read_body_xyzm PointZM.new_from_opt_vals x y z m 0xC0000001 none
        [] hx hy hz hm (by decide) (by decide)]
    rfl
  · have hw : EwkbPoint.write_ewkb (PointZM.as_ewkb ⟨x, y, z, m, some s⟩)
        = 1 :: (u32le 0xE0000001
            ++ (i32le s ++ (f64le x ++ (f64le y ++ (f64le z ++ (f64le m ++ [])))))) := by
      simp [EwkbPoint.write_ewkb, Ewkb.write_ewkb, EwkbPoint.type_id,
        EwkbPoint.write_ewkb_body, wkb_type_id, Point.as_ewkb, PointZ.as_ewkb,
        PointM.as_ewkb, PointZM.as_ewkb, PgPoint.x, PgPoint.y, PgPoint.opt_z,
        PgPoint.opt_m]
    rw [hw, read_ewkb_header_srid PointZM 0xE0000001 s _ (by decide)
        (by decide) hs.1 hs.2,
      show EwkbRead.read_ewkb_body (P := PointZM)
          = point_read_body PointZM.new_from_opt_vals from rfl,
      point_read_body_xyzm PointZM.new_from_opt_vals x y z m 0xE0000001
        (some s) [] hx hy hz hm (by decide) (by decide)]
    rfl

/-- C6: decoding a ZM-flagged payload as plain `Point` succeeds and drops the
z and m values; re-encoding that `Point` and decoding it again as `Point` is
stable; but the ZM information is gone — re-reading the re-encoded bytes as
`PointZM` yields zeroed z/m, different from the original whenever z or m was
nonzero. -/
theorem c6_lossy_downcast (x y z m : Nat) (srid : Option Int)
    (hx : x < 2 ^ 64) (hy : y < 2 ^ 64) (hz : z < 2 ^ 64) (hm : m < 2 ^ 64)
    (hs : sridInRange srid) :
    read_ewkb Point (EwkbPoint.write_ewkb (PointZM.as_ewkb ⟨x, y, z, m, srid⟩))
      = .ok (⟨x, y, srid⟩, [])
    ∧ read_ewkb Point (EwkbPoint.write_ewkb (Point.as_ewkb ⟨x, y, srid⟩))
      = .ok (⟨x, y, srid⟩, [])
    ∧ read_ewkb PointZM (EwkbPoint.write_ewkb (Point.as_ewkb ⟨x, y, srid⟩))
      = .ok (⟨x, y, 0, 0, srid⟩, [])
    ∧ ((z ≠ 0 ∨ m ≠ 0) →
        PointZM.mk x y 0 0 srid ≠ PointZM.mk x y z m srid) := by
  refine ⟨?_, ?_, ?_, ?_⟩
  · rcases srid with _ | s
    · have hw : EwkbPoint.write_ewkb (PointZM.as_ewkb ⟨x, y, z, m, none⟩)
          = 1 :: (u32le 0xC0000001
              ++ (f64le x ++ (f64le y ++ (f64le z ++ (f64le m ++ []))))) := by
        simp [EwkbPoint.write_ewkb, Ewkb.write_ewkb, EwkbPoint.type_id,
          EwkbPoint.write_ewkb_body, wkb_type_id, PointZM.as_ewkb, PgPoint.x,
          PgPoint.y, PgPoint.opt_z, PgPoint.opt_m]
      rw [hw, read_ewkb_header_none Point 0xC0000001 _ (by decide)
          (by decide),
        show EwkbRead.read_ewkb_body (P := Point)
            = point_read_body Point.new_from_opt_vals from rfl,
        point_read_body_xyzm Point.new_from_opt_vals x y z m 0xC0000001 none
          [] hx hy hz hm (by decide) (by decide)]
      rfl
    · have hw : EwkbPoint.write_ewkb (PointZM.as_ewkb ⟨x, y, z, m, some s⟩)
          = 1 :: (u32le 0xE0000001
              ++ (i32le s
                ++ (f64le x ++ (f64le y ++ (f64le z ++ (f64le m ++ [])))))) :=
        by
        simp [EwkbPoint.write_ewkb, Ewkb.write_ewkb, EwkbPoint.type_id,
          EwkbPoint.write_ewkb_body, wkb_type_id, PointZM.as_ewkb, PgPoint.x,
          PgPoint.y, PgPoint.opt_z, PgPoint.opt_m]
      rw [hw, read_ewkb_header_srid Point 0xE0000001 s _ (by decide)
          (by decide) hs.1 hs.2,
        show EwkbRead.read_ewkb_body (P := Point)
            = point_read_body Point.new_from_opt_vals from rfl,
        point_read_body_xyzm Point.new_from_opt_vals x y z m 0xE0000001
          (some s) [] hx hy hz hm (by decide) (by decide)]
      rfl
  · rcases srid with _ | s
    · have hw : EwkbPoint.write_ewkb (Point.as_ewkb ⟨x, y, none⟩)
          = 1 :: (u32le 0x01 ++ (f64le x ++ (f64le y ++ []))) := by
        simp [EwkbPoint.write_ewkb, Ewkb.write_ewkb, EwkbPoint.type_id,
          EwkbPoint.write_ewkb_body, wkb_type_id, Point.as_ewkb, PgPoint.x,
          PgPoint.y, PgPoint.opt_z, PgPoint.opt_m]
      rw [hw, read_ewkb_header_none Point 0x01 _ (by decide) (by decide),
        show EwkbRead.read_ewkb_body (P := Point)
            = point_read_body Point.new_from_opt_vals from rfl,
        point_read_body_xy Point.new_from_opt_vals x y 0x01 none [] hx hy
          (by decide) (by decide)]
      rfl
    · have hw : EwkbPoint.write_ewkb (Point.as_ewkb ⟨x, y, some s⟩)
          = 1 :: (u32le 0x20000001
              ++ (i32le s ++ (f64le x ++ (f64le y ++ [])))) := by
        simp [EwkbPoint.write_ewkb, Ewkb.write_ewkb, EwkbPoint.type_id,
          EwkbPoint.write_ewkb_body, wkb_type_id, Point.as_ewkb, PgPoint.x,
          PgPoint.y, PgPoint.opt_z, PgPoint.opt_m]
      rw [hw, read_ewkb_header_srid Point 0x20000001 s _ (by decide)
          (by decide) hs.1 hs.2,
        show EwkbRead.read_ewkb_body (P := Point)
            = point_read_body Point.new_from_opt_vals from rfl,
        point_read_body_xy Point.new_from_opt_vals x y 0x20000001 (some s) []
          hx hy (by decide) (by decide)]
      rfl
  · rcases srid with _ | s
    · have hw : EwkbPoint.write_ewkb (Point.as_ewkb ⟨x, y, none⟩)
          = 1 :: (u32le 0x01 ++ (f64le x ++ (f64le y ++ []))) := by
        simp [EwkbPoint.write_ewkb, Ewkb.write_ewkb, EwkbPoint.type_id,
          EwkbPoint.write_ewkb_body, wkb_type_id, Point.as_ewkb, PgPoint.x,
          PgPoint.y, PgPoint.opt_z, PgPoint.opt_m]
      rw [hw, read_ewkb_header_none PointZM 0x01 _ (by decide) (by decide),
        show EwkbRead.read_ewkb_body (P := PointZM)
            = point_read_body PointZM.new_from_opt_vals from rfl,
        point_read_body_xy PointZM.new_from_opt_vals x y 0x01 none [] hx hy
          (by decide) (by decide)]
      rfl
    · have hw : EwkbPoint.write_ewkb (Point.as_ewkb ⟨x, y, some s⟩)
          = 1 :: (u32le 0x20000001
              ++ (i32le s ++ (f64le x ++ (f64le y ++ [])))) := by
        simp [EwkbPoint.write_ewkb, Ewkb.write_ewkb, EwkbPoint.type_id,
          EwkbPoint.write_ewkb_body, wkb_type_id, Point.as_ewkb, PgPoint.x,
          PgPoint.y, PgPoint.opt_z, PgPoint.opt_m]
      rw [hw, read_ewkb_header_srid PointZM 0x20000001 s _ (by decide)
          (by decide) hs.1 hs.2,
        show EwkbRead.read_ewkb_body (P := PointZM)
            = point_read_body PointZM.new_from_opt_vals from rfl,
        point_read_body_xy PointZM.new_from_opt_vals x y 0x20000001 (some s)
          [] hx hy (by decide) (by decide)]
      rfl
  · intro hzm heq
    rw [PointZM.mk.injEq] at heq
    obtain ⟨-, -, hz0, hm0, -⟩ := heq
    rcases hzm with h | h
    · exact h hz0.symm
    · exact h hm0.symm

/-- Every successful point body read produces `new_from_opt_vals x y oz om
srid` where the optional z is `none` when the type id lacks the Z flag and
the optional m is `none` when it lacks the M flag. -/
theorem point_read_body_shape {P : Type}
    (mk : Nat → Nat → Option Nat → Option Nat → Option Int → P)
    (raw : Bytes) (is_be : Bool) (tid : Nat) (srid : Option Int)
    (p : P) (rest : Bytes)
    (h : point_read_body mk raw is_be tid srid = .ok (p, rest)) :
    ∃ x y oz om, p = mk x y oz om srid
      ∧ (has_z tid = false → oz = none)
      ∧ (has_m tid = false → om = none) := by
  rw [point_read_body] at h
  rcases hx : read_f64 raw is_be with e | ⟨x, raw1⟩
  · rw [hx] at h
    exact absurd h (by simp)
  rw [hx] at h
  dsimp only at h
  rcases hy : read_f64 raw1 is_be with e | ⟨y, raw2⟩
  · rw [hy] at h
    exact absurd h (by simp)
  rw [hy] at h
  dsimp only at h
  rcases hzq : (if has_z tid = true
      then Except.map (fun p => (some p.1, p.2)) (read_f64 raw2 is_be)
      else Except.ok (none, raw2)) with e | ⟨oz, raw3⟩
  · rw [hzq] at h
    exact absurd h (by simp)
  rw [hzq] at h
  dsimp only at h
  rcases hmq : (if has_m tid = true
      then Except.map (fun p => (some p.1, p.2)) (read_f64 raw3 is_be)
      else Except.ok (none, raw3)) with e | ⟨om, raw4⟩
  · rw [hmq] at h
    exact absurd h (by simp)
  rw [hmq] at h
  dsimp only at h
  simp only [Except.ok.injEq, Prod.mk.injEq] at h
  refine ⟨x, y, oz, om, h.1.symm, ?_, ?_⟩
  · intro hzf
    rw [hzf] at hzq
    simp only [Bool.false_eq_true, if_false, Except.ok.injEq,
      Prod.mk.injEq] at hzq
    exact hzq.1.symm
  · intro hmf
    rw [hmf] at hmq
    simp only [Bool.false_eq_true, if_false, Except.ok.injEq,
      Prod.mk.injEq] at hmq
    exact hmq.1.symm

/-- C10: reading a point payload into a target shape with more dimensions
than the wire carries succeeds with the absent coordinates defaulted to 0.0
(pattern 0): a payload without the Z flag read as `PointZ` has `z = 0`, one
without the M flag read as `PointM` has `m = 0`, and `PointZM` defaults
whichever of z/m is absent. -/
theorem c10_widen_up_defaults (raw : Bytes) (is_be : Bool) (tid : Nat)
    (srid : Option Int) :
    (∀ (p : PointZ) (rest : Bytes), has_z tid = false →
      EwkbRead.read_ewkb_body (P := PointZ) raw is_be tid srid = .ok (p, rest)
      → p.z = 0)
    ∧ (∀ (p : PointM) (rest : Bytes), has_m tid = false →
      EwkbRead.read_ewkb_body (P := PointM) raw is_be tid srid = .ok (p, rest)
      → p.m = 0)
    ∧ (∀ (p : PointZM) (rest : Bytes),
        EwkbRead.read_ewkb_body (P := PointZM) raw is_be tid srid
          = .ok (p, rest) →
        (has_z tid = false → p.z = 0) ∧ (has_m tid = false → p.m = 0)) := by
  refine ⟨?_, ?_, ?_⟩
  · intro p rest hzf h
    obtain ⟨x, y, oz, om, hp, hoz, -⟩ :=
      point_read_body_shape PointZ.new_from_opt_vals raw is_be tid srid p
        rest h
    rw [hp, hoz hzf]
    rfl
  · intro p rest hmf h
    obtain ⟨x, y, oz, om, hp, -, hom⟩ :=
      point_read_body_shape PointM.new_from_opt_vals raw is_be tid srid p
        rest h
    rw [hp, hom hmf]
    rfl
  · intro p rest h
    obtain ⟨x, y, oz, om, hp, hoz, hom⟩ :=
      point_read_body_shape PointZM.new_from_opt_vals raw is_be tid srid p
        rest h
    constructor
    · intro hzf
      rw [hp, hoz hzf]
      rfl
    · intro hmf
      rw [hp, hom hmf]
      rfl

/-- Witness for C10: a 16-byte x/y payload with type id 1 (no Z, no M flag)
read as `PointZ` yields z = 0. -/
theorem c10_widen_up_defaults_witness :
    has_z 1 = false
    ∧ EwkbRead.read_ewkb_body (P := PointZ) (f64le 7 ++ (f64le 8 ++ []))
        false 1 none = .ok (⟨7, 8, 0, none⟩, [])
    ∧ (PointZ.mk 7 8 0 none).z = 0 :=
  ⟨by decide, by rfl,
    (c10_widen_up_defaults (f64le 7 ++ (f64le 8 ++ [])) false 1 none).1
      ⟨7, 8, 0, none⟩ [] (by decide) (by rfl)⟩

/-- Elements produced by a successful `readN` loop all satisfy any property
the element reader guarantees. -/
theorem readN_forall {α : Type} (rd : Bytes → Except Error (α × Bytes))
    (pred : α → Prop)
    (hrd : ∀ s a r, rd s = .ok (a, r) → pred a) :
    ∀ (n : Nat) (s : Bytes) (items : List α) (r : Bytes),
      readN rd n s = .ok (items, r) → ∀ a ∈ items, pred a := by
  intro n
  induction n with
  | zero =>
    intro s items r h a ha
    simp only [readN, Except.ok.injEq, Prod.mk.injEq] at h
    rw [← h.1] at ha
    simp at ha
  | succ n ih =>
    intro s items r h a ha
    simp only [readN] at h
    rcases h1 : rd s with e | ⟨a1, s1⟩
    · rw [h1] at h
      exact absurd h (by simp)
    rw [h1] at h
    dsimp only at h
    rcases h2 : readN rd n s1 with e | ⟨items1, s2⟩
    · rw [h2] at h
      exact absurd h (by simp)
    rw [h2] at h
    dsimp only at h
    simp only [Except.ok.injEq, Prod.mk.injEq] at h
    rw [← h.1] at ha
    rcases List.mem_cons.mp ha with rfl | ha1
    · exact hrd s a s1 h1
    · exact ih s1 items1 s2 h2 a ha1

/-- A decoded 2D point stores exactly the SRID passed to its body reader. -/
theorem point_read_body_srid (raw : Bytes) (is_be : Bool) (tid : Nat)
    (srid : Option Int) (p : Point) (rest : Bytes)
    (h : point_read_body Point.new_from_opt_vals raw is_be tid srid
      = .ok (p, rest)) :
    p.srid = srid := by
  obtain ⟨x, y, oz, om, hp, -, -⟩ :=
    point_read_body_shape Point.new_from_opt_vals raw is_be tid srid p rest h
  rw [hp]
  rfl

/-- A decoded inline `LineString` body stores the passed SRID on itself and
on every contained point. -/
theorem lineString_body_srid (raw : Bytes) (is_be : Bool) (tid : Nat)
    (srid : Option Int) (ls : LineStringT Point) (rest : Bytes)
    (h : LineStringT.read_ewkb_body Point raw is_be tid srid
      = .ok (ls, rest)) :
    ls.srid = srid ∧ ∀ p ∈ ls.points, p.srid = srid := by
  simp only [LineStringT.read_ewkb_body] at h
  rcases h1 : read_u32 raw is_be with e | ⟨size, raw1⟩
  · rw [h1] at h
    exact absurd h (by simp)
  rw [h1] at h
  dsimp only at h
  rcases h2 : readN
      (fun raw => EwkbRead.read_ewkb_body (P := Point) raw is_be tid srid)
      size raw1 with e | ⟨pts, raw2⟩
  · rw [h2] at h
    exact absurd h (by simp)
  rw [h2] at h
  dsimp only at h
  simp only [Except.ok.injEq, Prod.mk.injEq] at h
  rw [← h.1]
  exact ⟨rfl,
    readN_forall _ (fun p => p.srid = srid)
      (fun s a r hh => point_read_body_srid s is_be tid srid a r hh)
      size raw1 pts raw2 h2⟩

/-- C4: inline SRID inheritance — a `LineString` body decoded with SRID S
gives every contained point SRID S, and a `Polygon` body decoded with SRID S
gives every ring, and every point of every ring, SRID S. -/
theorem c4_inline_srid_inheritance (raw : Bytes) (is_be : Bool) (tid : Nat)
    (S : Int) :
    (∀ (ls : LineStringT Point) (rest : Bytes),
      LineStringT.read_ewkb_body Point raw is_be tid (some S) = .ok (ls, rest)
      → ls.srid = some S ∧ ∀ p ∈ ls.points, p.srid = some S)
    ∧ (∀ (poly : PolygonT Point) (rest : Bytes),
      PolygonT.read_ewkb_body Point raw is_be tid (some S) = .ok (poly, rest)
      → poly.srid = some S ∧ ∀ ring ∈ poly.rings,
          ring.srid = some S ∧ ∀ p ∈ ring.points, p.srid = some S) := by
  constructor
  · intro ls rest h
    exact lineString_body_srid raw is_be tid (some S) ls rest h
  · intro poly rest h
    simp only [PolygonT.read_ewkb_body] at h
    rcases h1 : read_u32 raw is_be with e | ⟨size, raw1⟩
    · rw [h1] at h
      exact absurd h (by simp)
    rw [h1] at h
    dsimp only at h
    rcases h2 : readN
        (fun raw => LineStringT.read_ewkb_body Point raw is_be tid (some S))
        size raw1 with e | ⟨rings, raw2⟩
    · rw [h2] at h
      exact absurd h (by simp)
    rw [h2] at h
    dsimp only at h
    simp only [Except.ok.injEq, Prod.mk.injEq] at h
    rw [← h.1]
    exact ⟨rfl,
      readN_forall _
        (fun ring => ring.srid = some S ∧ ∀ p ∈ ring.points, p.srid = some S)
        (fun s a r hh => lineString_body_srid s is_be tid (some S) a r hh)
        size raw1 rings raw2 h2⟩

/-- Witness for C4: a one-point LineString body decoded with SRID 4326 yields
the point carrying SRID 4326. -/
theorem c4_inline_srid_inheritance_witness :
    LineStringT.read_ewkb_body Point (u32le 1 ++ (f64le 5 ++ (f64le 6 ++ [])))
      false 2 (some 4326)
      = .ok (⟨[⟨5, 6, some 4326⟩], some 4326⟩, [])
    ∧ ((⟨[⟨5, 6, some 4326⟩], some 4326⟩ : LineStringT Point).srid = some 4326
      ∧ ∀ p ∈ (⟨[⟨5, 6, some 4326⟩], some 4326⟩ : LineStringT Point).points,
          p.srid = some 4326) :=
  ⟨by decide,
    (c4_inline_srid_inheritance (u32le 1 ++ (f64le 5 ++ (f64le 6 ++ [])))
      false 2 4326).1 ⟨[⟨5, 6, some 4326⟩], some 4326⟩ [] (by decide)⟩

/-- C8: after the generic `GeometryT` dispatcher has read the header, a
type-id low byte outside 1–7 fails with the "unsupported type id" read error,
while each low byte 1–7 dispatches to the body reader of the matching kind. -/
theorem c8_geometry_dispatch (fuel : Nat) (raw r1 r2 r3 : Bytes) (b w : Nat)
    (srid : Option Int)
    (h1 : read_byte raw = .ok (b, r1))
    (h2 : read_u32 r1 (b == 0) = .ok (w, r2))
    (h3 : readOptSrid r2 (b == 0) w = .ok (srid, r3)) :
    (¬ (1 ≤ w &&& 0xff ∧ w &&& 0xff ≤ 7) →
      GeometryT.read_ewkb Point fuel raw
        = .error (.read (unsupportedMsg w)))
    ∧ (w &&& 0xff = 1 → GeometryT.read_ewkb Point fuel raw
        = (EwkbRead.read_ewkb_body (P := Point) r3 (b == 0) w srid).map
            (fun p => (GeometryT.point p.1, p.2)))
    ∧ (w &&& 0xff = 2 → GeometryT.read_ewkb Point fuel raw
        = (LineStringT.read_ewkb_body Point r3 (b == 0) w srid).map
            (fun p => (GeometryT.lineString p.1, p.2)))
    ∧ (w &&& 0xff = 3 → GeometryT.read_ewkb Point fuel raw
        = (PolygonT.read_ewkb_body Point r3 (b == 0) w srid).map
            (fun p => (GeometryT.polygon p.1, p.2)))
    ∧ (w &&& 0xff = 4 → GeometryT.read_ewkb Point fuel raw
        = (MultiPointT.read_ewkb_body Point r3 (b == 0) w srid).map
            (fun p => (GeometryT.multiPoint p.1, p.2)))
    ∧ (w &&& 0xff = 5 → GeometryT.read_ewkb Point fuel raw
        = (MultiLineStringT.read_ewkb_body Point r3 (b == 0) w srid).map
            (fun p => (GeometryT.multiLineString p.1, p.2)))
    ∧ (w &&& 0xff = 6 → GeometryT.read_ewkb Point fuel raw
        = (MultiPolygonT.read_ewkb_body Point r3 (b == 0) w srid).map
            (fun p => (GeometryT.multiPolygon p.1, p.2)))
    ∧ (∀ fl : Nat, fuel = fl + 1 → w &&& 0xff = 7 →
        GeometryT.read_ewkb Point fuel raw
        = (GeometryCollectionT.read_ewkb_body Point fl r3 (b == 0) w
            srid).map
            (fun p => (GeometryT.geometryCollection p.1, p.2))) := by
  have hstep : GeometryT.read_ewkb Point fuel raw
      = geomDispatch Point fuel r3 (b == 0) w srid := by
    rw [GeometryT.read_ewkb, h1]
    dsimp only
    rw [h2]
    dsimp only
    rw [h3]
  refine ⟨?_, ?_, ?_, ?_, ?_, ?_, ?_, ?_⟩
  · intro hno
    have hne1 : ¬ (w &&& 0xff = 1) := fun hh => hno ⟨by omega, by omega⟩
    have hne2 : ¬ (w &&& 0xff = 2) := fun hh => hno ⟨by omega, by omega⟩
    have hne3 : ¬ (w &&& 0xff = 3) := fun hh => hno ⟨by omega, by omega⟩
    have hne4 : ¬ (w &&& 0xff = 4) := fun hh => hno ⟨by omega, by omega⟩
    have hne5 : ¬ (w &&& 0xff = 5) := fun hh => hno ⟨by omega, by omega⟩
    have hne6 : ¬ (w &&& 0xff = 6) := fun hh => hno ⟨by omega, by omega⟩
    have hne7 : ¬ (w &&& 0xff = 7) := fun hh => hno ⟨by omega, by omega⟩
    rw [hstep, geomDispatch.eq_def]
    try dsimp only
    rw [if_neg hne1, if_neg hne2, if_neg hne3, if_neg hne4, if_neg hne5,
      if_neg hne6, if_neg hne7]
  · intro hk
    rw [hstep, geomDispatch.eq_def]
    try dsimp only
    rw [hk]
    norm_num
    try rfl
  · intro hk
    rw [hstep, geomDispatch.eq_def]
    try dsimp only
    rw [hk]
    norm_num
    try rfl
  · intro hk
    rw [hstep, geomDispatch.eq_def]
    try dsimp only
    rw [hk]
    norm_num
    try rfl
  · intro hk
    rw [hstep, geomDispatch.eq_def]
    try dsimp only
    rw [hk]
    norm_num
    try rfl
  · intro hk
    rw [hstep, geomDispatch.eq_def]
    try dsimp only
    rw [hk]
    norm_num
    try rfl
  · intro hk
    rw [hstep, geomDispatch.eq_def]
    try dsimp only
    rw [hk]
    norm_num
    try rfl
  · intro fl hfl hk
    subst hfl
    rw [hstep, geomDispatch.eq_def]
    try dsimp only
    rw [hk]
    norm_num
    try rfl

/-- Witness for C8 at the 5-byte stream with little-endian type id 9: the
generic dispatcher fails with the unsupported-kind read error. -/
theorem c8_geometry_dispatch_witness :
    ¬ (1 ≤ 9 &&& 0xff ∧ 9 &&& 0xff ≤ 7)
    ∧ GeometryT.read_ewkb Point 1 (1 :: u32le 9)
      = .error (.read (unsupportedMsg 9)) :=
  ⟨by decide,
    (c8_geometry_dispatch 1 (1 :: u32le 9) (u32le 9) [] [] 1 9 none
      (by decide) (by decide) (by decide)).1 (by decide)⟩

/-- C2, counterexample: invoking the body-only entry point on the generic
geometry-variant type does not return an "unsupported operation" error — it
panics. At the concrete input (empty stream, little-endian, type id 1, no
SRID) the call is modelled by the distinguished `Error.panicked` outcome,
which stands for abrupt process termination via `panic!`, not for an error
value returned to the caller. -/
theorem c2_counterexample :
    GeometryT.read_ewkb_body Point [] false 1 none
      = .error (.panicked "Not used for generic geometry type") := rfl

/-- C2, amended: invoking `read_ewkb_body` directly on `GeometryT` panics
(`panic!("Not used for generic geometry type")`, an abrupt process
termination) for every input stream and argument combination; no error value
is returned to the caller. -/
theorem c2_read_ewkb_body_panics (P : Type) (raw : Bytes) (is_be : Bool)
    (type_id : Nat) (srid : Option Int) :
    GeometryT.read_ewkb_body P raw is_be type_id srid
      = .error (.panicked "Not used for generic geometry type") := rfl

/-- C1, code bug: on the typed-element container wire values below (each with
header SRID 4326), MultiPoint, MultiLineString and MultiPolygon decode to a
container with `srid = some 4326` and elements with `srid = none`, as the
claim states — but GeometryCollection decodes to `srid = none`:
`GeometryCollectionT::read_ewkb_body` ignores its `srid` argument and returns
`GeometryCollectionT::new()`, whose `srid` is `None` and is never updated.
The failing input is the collection value (hex
`0107000020E610000001000000010100000` followed by the two coordinate
words). -/
theorem c1_geometrycollection_srid_dropped :
    read_ewkb (MultiPointT Point)
        (1 :: (u32le 0x20000004 ++ (i32le 4326 ++ (u32le 1
          ++ (1 :: (u32le 1 ++ (f64le 7 ++ f64le 8)))))))
      = .ok (⟨[⟨7, 8, none⟩], some 4326⟩, [])
    ∧ read_ewkb (MultiLineStringT Point)
        (1 :: (u32le 0x20000005 ++ (i32le 4326 ++ (u32le 1
          ++ (1 :: (u32le 2 ++ (u32le 1 ++ (f64le 7 ++ f64le 8))))))))
      = .ok (⟨[⟨[⟨7, 8, none⟩], none⟩], some 4326⟩, [])
    ∧ read_ewkb (MultiPolygonT Point)
        (1 :: (u32le 0x20000006 ++ (i32le 4326 ++ (u32le 1
          ++ (1 :: (u32le 3 ++ (u32le 1
            ++ (u32le 1 ++ (f64le 7 ++ f64le 8)))))))))
      = .ok (⟨[⟨[⟨[⟨7, 8, none⟩], none⟩], none⟩], some 4326⟩, [])
    ∧ GeometryCollectionT.read_ewkb Point 2
        (1 :: (u32le 0x20000007 ++ (i32le 4326 ++ (u32le 1
          ++ (1 :: (u32le 1 ++ (f64le 7 ++ f64le 8)))))))
      = .ok (.mk [.point ⟨7, 8, none⟩] none, []) :=
  ⟨rfl, rfl, rfl, rfl⟩

/-- C5: the typed-element container writers serialize every element without
an SRID field. For MultiLineString (and MultiPoint) at the 2D point shape:
the body is the count followed by each element as order byte, type id and
body directly — no SRID word in between — where the element type id is built
with `srid = none` and has the SRID flag bit clear; consequently the output
is unchanged when every element's stored SRID is erased to `none`, i.e. the
in-memory element SRIDs are never written. -/
theorem c5_container_write_element_srid_none :
    (∀ mls : MultiLineStringT Point,
      EwkbMultiLineString.write_ewkb_body (MultiLineStringT.as_ewkb mls)
        = u32le mls.lines.length
          ++ (mls.lines.map (fun l =>
              1 :: (u32le (0x02 ||| wkb_type_id PointType.Point none)
                ++ (u32le l.points.length
                  ++ (l.points.map (fun p =>
                      EwkbPoint.write_ewkb_body
                        ⟨p, none, PointType.Point⟩)).flatten)))).flatten)
    ∧ Nat.land (0x02 ||| wkb_type_id PointType.Point none) 0x20000000 = 0
    ∧ (∀ mls : MultiLineStringT Point,
      EwkbMultiLineString.write_ewkb_body (MultiLineStringT.as_ewkb mls)
        = EwkbMultiLineString.write_ewkb_body (MultiLineStringT.as_ewkb
            ⟨mls.lines.map (fun l => LineStringT.mk l.points none), mls.srid⟩))
    ∧ (∀ mp : MultiPointT Point,
      EwkbMultiPoint.write_ewkb_body (MultiPointT.as_ewkb mp)
        = u32le mp.points.length
          ++ (mp.points.map (fun p =>
              1 :: (u32le (0x01 ||| wkb_type_id PointType.Point none)
                ++ EwkbPoint.write_ewkb_body
                    ⟨p, none, PointType.Point⟩))).flatten)
    ∧ Nat.land (0x01 ||| wkb_type_id PointType.Point none) 0x20000000 = 0
    ∧ (∀ mp : MultiPointT Point,
      EwkbMultiPoint.write_ewkb_body (MultiPointT.as_ewkb mp)
        = EwkbMultiPoint.write_ewkb_body (MultiPointT.as_ewkb
            ⟨mp.points.map (fun p => Point.mk p.x p.y none), mp.srid⟩)) := by
  refine ⟨fun mls => rfl, by decide, fun mls => ?_, fun mp => rfl, by decide,
    fun mp => ?_⟩
  · simp only [EwkbMultiLineString.write_ewkb_body, MultiLineStringT.as_ewkb,
      List.length_map, List.map_map]
    rfl
  · simp only [EwkbMultiPoint.write_ewkb_body, MultiPointT.as_ewkb,
      List.length_map, List.map_map]
    rfl

/-- Witness for C6 at x = 1, y = 2, z = 3, m = 4 with no SRID. -/
theorem c6_lossy_downcast_witness :
    ((1 : Nat) < 2 ^ 64 ∧ (2 : Nat) < 2 ^ 64 ∧ (3 : Nat) < 2 ^ 64
      ∧ (4 : Nat) < 2 ^ 64 ∧ sridInRange none)
    ∧ read_ewkb Point (EwkbPoint.write_ewkb (PointZM.as_ewkb ⟨1, 2, 3, 4, none⟩))
      = .ok (⟨1, 2, none⟩, [])
    ∧ PointZM.mk 1 2 0 0 none ≠ PointZM.mk 1 2 3 4 none :=
  ⟨⟨by decide, by decide, by decide, by decide, trivial⟩,
    (c6_lossy_downcast 1 2 3 4 none (by decide) (by decide) (by decide)
      (by decide) trivial).1,
    (c6_lossy_downcast 1 2 3 4 none (by decide) (by decide) (by decide)
      (by decide) trivial).2.2.2 (Or.inl (by decide))⟩

/-- Witness for C3 at the spec's example point (10, -20) with SRID 4326 and
z/m patterns of 100.0 and 1.0. -/
theorem c3_point_round_trip_witness :
    ((0x4024000000000000 : Nat) < 2 ^ 64 ∧ (0xC034000000000000 : Nat) < 2 ^ 64
      ∧ (0x4059000000000000 : Nat) < 2 ^ 64
      ∧ (0x3FF0000000000000 : Nat) < 2 ^ 64
      ∧ sridInRange (some 4326))
    ∧ read_ewkb Point (EwkbPoint.write_ewkb (Point.as_ewkb
        ⟨0x4024000000000000, 0xC034000000000000, some 4326⟩))
      = .ok (⟨0x4024000000000000, 0xC034000000000000, some 4326⟩, []) :=
  ⟨⟨by decide, by decide, by decide, by decide, by decide, by decide⟩,
    (c3_point_round_trip 0x4024000000000000 0xC034000000000000
      0x4059000000000000 0x3FF0000000000000 (some 4326) (by decide)
      (by decide) (by decide) (by decide) ⟨by decide, by decide⟩).1⟩

end Ewkb
